import Mathlib

/-!
Shallow embedding of the medical-search backend (`backend/server.py`).

The embedding models the pure decision logic of the three clients
(`PBSAPIClient`, `GoogleSearchClient`, the endpoint handlers) as total
Lean functions over explicit environment values that stand for the
outcomes of the external collaborators (HTTP responses, exceptions,
the document store).  Machine behaviour that the code branches on —
HTTP status codes, JSON payload shapes, Python truthiness of optional
environment variables, the `in` substring operator — is reproduced
faithfully from the source.
-/

namespace MedSearch

/-- `charsHavePrefix n h` holds when the char list `n` is an initial
segment of `h`. -/
def charsHavePrefix : List Char → List Char → Bool
  | [], _ => true
  | _ :: _, [] => false
  | a :: as, b :: bs => a == b && charsHavePrefix as bs

/-- `charsContain n h` holds when the char list `n` occurs contiguously
inside `h`. -/
def charsContain (needle : List Char) : List Char → Bool
  | [] => charsHavePrefix needle []
  | b :: bs => charsHavePrefix needle (b :: bs) || charsContain needle bs

/-- Python `needle in hay` substring test on strings. -/
def containsSub (hay needle : String) : Bool :=
  charsContain needle.toList hay.toList

/-- Python `str.lower()` (ASCII case mapping, which covers every string
the program manipulates). -/
def strToLower (s : String) : String :=
  String.mk (s.toList.map Char.toLower)

/-- Python `a or b` on strings: the first operand unless it is falsy (empty). -/
def strOr (a b : String) : String :=
  if a = "" then b else a

/-- Python truthiness of `os.environ.get(..)`: `None` and `""` are falsy. -/
def truthy : Option String → Bool
  | none => false
  | some s => s != ""

/-- The `PBSMedication` pydantic model (server.py lines 43-52). -/
structure PBSMedication where
  pbs_code : Option String
  drug_name : String
  active_ingredient : Option String
  manufacturer : Option String
  atc_code : Option String
  ddd_amount : Option String
  form_strength : Option String
  restrictions : Option (List String)
  prescriber_type : Option String
deriving DecidableEq

/-- The `GoogleSearchResult` pydantic model (server.py lines 54-58). -/
structure GoogleSearchResult where
  title : String
  link : String
  snippet : String
  source : String
deriving DecidableEq

/-- The `MedicationSearch` ledger entry (server.py lines 33-37); the
`datetime` timestamp is modelled as a `Nat`. -/
structure MedicationSearch where
  id : String
  query : String
  search_type : String
  timestamp : Nat
deriving DecidableEq

/-- The `MedicationSearchCreate` request body (server.py lines 39-41). -/
structure MedicationSearchCreate where
  query : String
  search_type : Option String
deriving DecidableEq

/-- The `UnifiedSearchResult` pydantic model (server.py lines 60-64). -/
structure UnifiedSearchResult where
  query : String
  pbs_results : List PBSMedication
  web_results : List GoogleSearchResult
  search_timestamp : Nat
deriving DecidableEq

/-! ## PBS catalog client (`PBSAPIClient`, server.py lines 67-184) -/

/-- One decoded element of the AMT item listing; string fields read with
`item.get(key, '')` are plain strings (absent becomes `""`), the
pass-through fields read with `item.get(key)` are optional. -/
structure AmtItem where
  pbs_code : Option String
  medicine_name : String
  generic_name : String
  active_ingredient : Option String
  manufacturer : Option String
  atc_code : Option String
  form_and_strength : Option String
  prescriber_type : Option String
deriving DecidableEq

/-- The decoded `/schedules` response: HTTP status and list of schedule
codes in `results`. -/
structure SchedulesResponse where
  status_code : Nat
  results : List Nat
deriving DecidableEq

/-- The decoded `/amt-items` response: HTTP status and item list. -/
structure AmtResponse where
  status_code : Nat
  results : List AmtItem
deriving DecidableEq

/-- Environment of one `search_medications` call: either some network or
parse exception was raised inside the `try` block, or the two upstream
calls produced concrete responses. -/
inductive PBSOutcome where
  | exn : PBSOutcome
  | responses (schedules : SchedulesResponse) (amt : AmtResponse) : PBSOutcome
deriving DecidableEq

/-- The seeded fallback list under the `"paracetamol"` key of
`_get_mock_pbs_data` (server.py lines 135-145). -/
def paracetamolSeed : List PBSMedication :=
  [{ pbs_code := some "1234A",
     drug_name := "Paracetamol 500mg Tablets",
     active_ingredient := some "Paracetamol",
     manufacturer := some "Various",
     atc_code := some "N02BE01",
     ddd_amount := none,
     form_strength := some "500mg tablet",
     restrictions := none,
     prescriber_type := some "General Practitioner" }]

/-- The seeded fallback list under the `"aspirin"` key
(server.py lines 146-156). -/
def aspirinSeed : List PBSMedication :=
  [{ pbs_code := some "5678B",
     drug_name := "Aspirin 100mg Tablets",
     active_ingredient := some "Acetylsalicylic acid",
     manufacturer := some "Various",
     atc_code := some "B01AC06",
     ddd_amount := none,
     form_strength := some "100mg tablet",
     restrictions := none,
     prescriber_type := some "General Practitioner" }]

/-- The seeded fallback list under the `"insulin"` key
(server.py lines 157-167). -/
def insulinSeed : List PBSMedication :=
  [{ pbs_code := some "9012C",
     drug_name := "Insulin Human Injection",
     active_ingredient := some "Human insulin",
     manufacturer := some "Novo Nordisk",
     atc_code := some "A10AB01",
     ddd_amount := none,
     form_strength := some "100 units/mL injection",
     restrictions := none,
     prescriber_type := some "Endocrinologist" }]

/-- The seed table of `_get_mock_pbs_data` (server.py lines 134-168),
keyed by canonical lowercase drug name, in source (insertion) order. -/
def mockMedications : List (String × List PBSMedication) :=
  [("paracetamol", paracetamolSeed), ("aspirin", aspirinSeed), ("insulin", insulinSeed)]

/-- The generic fallback record synthesised on no seed match
(server.py lines 176-184). -/
def genericFallback (query : String) : PBSMedication :=
  { pbs_code := some "DEMO",
    drug_name := query ++ " (Demo Result)",
    active_ingredient := some "Active ingredient information unavailable",
    manufacturer := some "Contact healthcare provider",
    atc_code := some "N/A",
    ddd_amount := none,
    form_strength := some "Various strengths available",
    restrictions := none,
    prescriber_type := some "Consult healthcare professional" }

/-- The seed-table scan of `_get_mock_pbs_data`: first seed whose name
contains the lowercased query or is contained in it
(`med_name in query_lower or query_lower in med_name`). -/
def lookupMock : List (String × List PBSMedication) → String → Option (List PBSMedication)
  | [], _ => none
  | (medName, meds) :: rest, queryLower =>
    if containsSub queryLower medName || containsSub medName queryLower then some meds
    else lookupMock rest queryLower

/-- `PBSAPIClient._get_mock_pbs_data` (server.py lines 132-184). -/
def get_mock_pbs_data (query : String) : List PBSMedication :=
  match lookupMock mockMedications (strToLower query) with
  | some meds => meds
  | none => [genericFallback query]

/-- The client-side match test (server.py lines 104-105):
`query.lower() in drug_name.lower() or query.lower() in generic_name.lower()`. -/
def matchesQuery (query : String) (item : AmtItem) : Bool :=
  containsSub (strToLower item.medicine_name) (strToLower query) ||
  containsSub (strToLower item.generic_name) (strToLower query)

/-- Construction of one `PBSMedication` from a matching AMT item
(server.py lines 107-115); `drug_name or generic_name` is Python string-or. -/
def mkMedication (item : AmtItem) : PBSMedication :=
  { pbs_code := item.pbs_code,
    drug_name := strOr item.medicine_name item.generic_name,
    active_ingredient := item.active_ingredient,
    manufacturer := item.manufacturer,
    atc_code := item.atc_code,
    ddd_amount := none,
    form_strength := item.form_and_strength,
    restrictions := none,
    prescriber_type := item.prescriber_type }

/-- The `medications` list accumulated from the `/amt-items` response
(server.py lines 96-116): when the listing returned 200, the first 10
items filtered by the client-side match and mapped into records; when it
returned any other status, the accumulator stays empty. -/
def liveMedications (amt : AmtResponse) (query : String) : List PBSMedication :=
  if amt.status_code == 200 then
    ((amt.results.take 10).filter (matchesQuery query)).map mkMedication
  else []

/-- `PBSAPIClient.search_medications` (server.py lines 70-130): on an
exception, fall back to mock data; on a non-200 `/schedules` status or an
empty schedule list, fall back to mock data; otherwise return the
accumulated live list (which is empty when `/amt-items` is non-200 or
nothing matches). -/
def search_medications (env : PBSOutcome) (query : String) : List PBSMedication :=
  match env with
  | .exn => get_mock_pbs_data query
  | .responses sched amt =>
    if sched.status_code == 200 then
      if sched.results.isEmpty then get_mock_pbs_data query
      else liveMedications amt query
    else get_mock_pbs_data query

/-! ## Google web-search client (`GoogleSearchClient`, server.py lines 187-273) -/

/-- One decoded element of the Custom Search `items` array; all three
fields are read with `item.get(key, '')`. -/
structure GoogleItem where
  title : String
  link : String
  snippet : String
deriving DecidableEq

/-- Environment of one live Custom Search call: either an exception was
raised inside the `try` block, or a response with a status and decoded
items arrived. -/
inductive WebOutcome where
  | exn : WebOutcome
  | resp (status_code : Nat) (items : List GoogleItem) : WebOutcome
deriving DecidableEq

/-- The credential configuration read in `GoogleSearchClient.__init__`
(server.py lines 188-190): the two optional environment variables. -/
structure GoogleEnv where
  api_key : Option String
  cse_id : Option String
deriving DecidableEq

/-- `GoogleSearchClient._determine_source` (server.py lines 235-248):
fixed URL-substring to source-tag table with generic default. -/
def determine_source (link : String) : String :=
  if containsSub link "tga.gov.au" then "TGA"
  else if containsSub link "nps.org.au" then "NPS"
  else if containsSub link "pbs.gov.au" then "PBS"
  else if containsSub link "health.gov.au" then "Health.gov.au"
  else if containsSub link "medicinesafety.gov.au" then "Medicine Safety"
  else "Australian Health"

/-- `GoogleSearchClient._get_mock_web_results` (server.py lines 250-273). -/
def get_mock_web_results (query : String) : List GoogleSearchResult :=
  [ { title := "NPS Medicine Finder - " ++ query ++ " Information",
      link := "https://www.nps.org.au/medicine-finder?q=" ++ query,
      snippet := "Find comprehensive information about " ++ query ++
        " including uses, side effects, interactions and safety information from NPS MedicineWise.",
      source := "NPS" },
    { title := "TGA - Therapeutic Goods Administration - " ++ query,
      link := "https://www.tga.gov.au/search?q=" ++ query,
      snippet := "Australian government information about " ++ query ++
        " regulation, safety alerts and product information from the Therapeutic Goods Administration.",
      source := "TGA" },
    { title := "Australian Government Department of Health - " ++ query,
      link := "https://www.health.gov.au/search?q=" ++ query,
      snippet := "Official government health information about " ++ query ++
        " including guidelines, policy and health professional resources.",
      source := "Health.gov.au" } ]

/-- Construction of one `GoogleSearchResult` from a response item
(server.py lines 214-224). -/
def mkWebResult (item : GoogleItem) : GoogleSearchResult :=
  { title := item.title,
    link := item.link,
    snippet := item.snippet,
    source := determine_source item.link }

/-- `GoogleSearchClient.search_medical_sites` (server.py lines 193-233):
with a missing or empty credential, return mock results without any live
call; otherwise map the 200 response items, and fall back to mock results
on a non-200 status or an exception. -/
def search_medical_sites (env : GoogleEnv) (outcome : WebOutcome) (query : String) :
    List GoogleSearchResult :=
  if !truthy env.api_key || !truthy env.cse_id then get_mock_web_results query
  else
    match outcome with
    | .exn => get_mock_web_results query
    | .resp status items =>
      if status == 200 then items.map mkWebResult
      else get_mock_web_results query

/-- The body of the `try` block of `search_medical_sites` with the raise
made explicit: the `.error` case is the exception a live call can raise
(network failure, JSON decode failure). -/
def search_medical_sites_body (outcome : WebOutcome) (query : String) :
    Except String (List GoogleSearchResult) :=
  match outcome with
  | .exn => .error "network or parse failure"
  | .resp status items =>
    if status == 200 then .ok (items.map mkWebResult)
    else .ok (get_mock_web_results query)

/-- `search_medical_sites` with its exception behaviour made explicit: the
credential guard runs before the `try` block, and the `except` clause
(server.py lines 231-233) converts every raised exception into mock
results, so no `.error` can escape. -/
def search_medical_sitesE (env : GoogleEnv) (outcome : WebOutcome) (query : String) :
    Except String (List GoogleSearchResult) :=
  if !truthy env.api_key || !truthy env.cse_id then .ok (get_mock_web_results query)
  else
    match search_medical_sites_body outcome query with
    | .ok results => .ok results
    | .error _ => .ok (get_mock_web_results query)

/-- The list of live Custom Search requests `search_medical_sites` issues,
as (query-string sent, `num` parameter) pairs (server.py lines 200-208):
none when a credential is missing, otherwise exactly one request carrying
the raw query and `num = 10`. -/
def google_requests (env : GoogleEnv) (query : String) : List (String × Nat) :=
  if !truthy env.api_key || !truthy env.cse_id then []
  else [(query, 10)]

/-! ## Endpoint handlers and the history ledger (server.py lines 285-369) -/

/-- Outcome of one endpoint handler: the typed response body or an
`HTTPException` with status and detail. -/
inductive HandlerResult (α : Type) where
  | success (value : α) : HandlerResult α
  | httpError (status : Nat) (detail : String) : HandlerResult α
deriving DecidableEq

/-- The ledger entry written by `search_pbs` (server.py lines 290-293):
the query text from the request and the hard-coded type `"pbs"`. -/
def pbsLogEntry (req : MedicationSearchCreate) (id : String) (ts : Nat) : MedicationSearch :=
  { id := id, query := req.query, search_type := "pbs", timestamp := ts }

/-- The ledger entry written by `search_google_medical`
(server.py lines 308-311): hard-coded type `"google_search"`. -/
def googleLogEntry (req : MedicationSearchCreate) (id : String) (ts : Nat) : MedicationSearch :=
  { id := id, query := req.query, search_type := "google_search", timestamp := ts }

/-- The ledger entry written by `unified_medical_search`
(server.py lines 326-329): hard-coded type `"unified"`. -/
def unifiedLogEntry (req : MedicationSearchCreate) (id : String) (ts : Nat) : MedicationSearch :=
  { id := id, query := req.query, search_type := "unified", timestamp := ts }

/-- The `search_pbs` endpoint (server.py lines 285-301).  `persistOk`
is the outcome of `db.medication_searches.insert_one`: when it raises,
the handler's catch-all turns the failure into HTTP 500 and the search is
never dispatched; when it succeeds, the entry is appended and the search
result is returned. -/
def search_pbs_handler (ledger : List MedicationSearch) (persistOk : Bool)
    (env : PBSOutcome) (req : MedicationSearchCreate) (id : String) (ts : Nat) :
    List MedicationSearch × HandlerResult (List PBSMedication) :=
  if persistOk then
    (ledger ++ [pbsLogEntry req id ts], .success (search_medications env req.query))
  else
    (ledger, .httpError 500 "PBS search failed")

/-- The `search_google_medical` endpoint (server.py lines 303-319). -/
def search_google_handler (ledger : List MedicationSearch) (persistOk : Bool)
    (env : GoogleEnv) (outcome : WebOutcome) (req : MedicationSearchCreate)
    (id : String) (ts : Nat) :
    List MedicationSearch × HandlerResult (List GoogleSearchResult) :=
  if persistOk then
    (ledger ++ [googleLogEntry req id ts],
     .success (search_medical_sites env outcome req.query))
  else
    (ledger, .httpError 500 "Google search failed")

/-- The `unified_medical_search` endpoint (server.py lines 321-346): log
the query, then await the PBS search and then the web search, and
assemble the combined response. -/
def unified_handler (ledger : List MedicationSearch) (persistOk : Bool)
    (pbsEnv : PBSOutcome) (gEnv : GoogleEnv) (gOutcome : WebOutcome)
    (req : MedicationSearchCreate) (id : String) (ts rts : Nat) :
    List MedicationSearch × HandlerResult UnifiedSearchResult :=
  if persistOk then
    (ledger ++ [unifiedLogEntry req id ts],
     .success { query := req.query,
                pbs_results := search_medications pbsEnv req.query,
                web_results := search_medical_sites gEnv gOutcome req.query,
                search_timestamp := rts })
  else
    (ledger, .httpError 500 "Unified search failed")

/-- Wall-clock duration model of the dispatch phase of
`unified_medical_search` (server.py lines 332-334): the handler awaits
`pbs_client.search_medications` to completion and only then awaits
`google_client.search_medical_sites`, so the two latencies add. -/
def unified_duration (pbs_latency web_latency : Nat) : Nat :=
  pbs_latency + web_latency

/-- Descending timestamp order on ledger entries, the sort key of
`.sort("timestamp", -1)` (server.py line 352). -/
def tsDesc (a b : MedicationSearch) : Prop :=
  b.timestamp ≤ a.timestamp

instance : DecidableRel tsDesc := fun _ _ => Nat.decLe _ _

instance : IsTotal MedicationSearch tsDesc :=
  ⟨fun a b => le_total b.timestamp a.timestamp⟩

instance : IsTrans MedicationSearch tsDesc :=
  ⟨fun _ _ _ h₁ h₂ => le_trans h₂ h₁⟩

/-- The `get_search_history` endpoint query (server.py line 352):
`find().sort("timestamp", -1).limit(50)` — the ledger sorted by
descending timestamp, truncated to 50 entries. -/
def recent_searches (ledger : List MedicationSearch) : List MedicationSearch :=
  (List.insertionSort tsDesc ledger).take 50

/-- The `google_search` field of the `health_check` response
(server.py line 366): `"configured" if os.environ.get('GOOGLE_API_KEY')
else "not_configured"` — only the API key is consulted, with Python
truthiness. -/
def health_google (env : GoogleEnv) : String :=
  if truthy env.api_key then "configured" else "not_configured"

/-! ## Helper lemmas -/

/-- Every list the seed-table scan can return is one of the three seed
lists, all of which are non-empty. -/
theorem lookupMock_ne_nil (ql : String) (meds : List PBSMedication)
    (h : lookupMock mockMedications ql = some meds) : meds ≠ [] := by
  simp only [mockMedications, lookupMock, paracetamolSeed, aspirinSeed, insulinSeed] at h
  split_ifs at h <;> (cases h; simp)

/-- The catalog fallback provider always returns at least one record. -/
theorem get_mock_pbs_data_ne_nil (q : String) : get_mock_pbs_data q ≠ [] := by
  unfold get_mock_pbs_data
  cases h : lookupMock mockMedications (strToLower q) with
  | none => simp
  | some meds => exact lookupMock_ne_nil _ meds h

/-! ## Claim theorems -/

/-- C1 counterexample: with the schedules call succeeding (status 200,
one schedule) but the AMT listing call returning status 500, the filtered
set is empty and `search_medications` returns the empty list — not the
deterministic fallback data, which is non-empty for this query.  This
refutes the claim that the result is always non-empty and that a
non-success listing status yields fallback data. -/
theorem catalog_search_can_be_empty :
    search_medications (.responses ⟨200, [1]⟩ ⟨500, []⟩) "paracetamol" = [] ∧
    get_mock_pbs_data "paracetamol" ≠ [] := by
  exact ⟨rfl, by decide⟩

/-- C1 (amended): `search_medications` returns the deterministic (and
always non-empty) fallback data exactly when an exception occurs, when the
schedules call returns a non-success status, or when it reports zero
schedules; when the schedules step succeeds with at least one schedule,
the live accumulated list is returned as-is, and that list is empty
whenever the AMT listing call returns a non-success status (and also
whenever the client-side filter matches nothing). -/
theorem catalog_fallback_policy (sched : SchedulesResponse) (amt : AmtResponse) (q : String) :
    search_medications .exn q = get_mock_pbs_data q ∧
    (sched.status_code ≠ 200 →
      search_medications (.responses sched amt) q = get_mock_pbs_data q) ∧
    (sched.results = [] →
      search_medications (.responses sched amt) q = get_mock_pbs_data q) ∧
    (sched.status_code = 200 → sched.results ≠ [] →
      search_medications (.responses sched amt) q = liveMedications amt q) ∧
    (amt.status_code ≠ 200 → liveMedications amt q = []) ∧
    get_mock_pbs_data q ≠ [] := by
  refine ⟨rfl, ?_, ?_, ?_, ?_, get_mock_pbs_data_ne_nil q⟩
  · intro h
    simp [search_medications, h]
  · intro h
    simp only [search_medications, h, List.isEmpty_nil]
    split_ifs <;> rfl
  · intro h₁ h₂
    simp [search_medications, h₁, List.isEmpty_eq_true, h₂]
  · intro h
    simp [liveMedications, h]

/-- C1 witness: concrete instances of each branch of the fallback
policy. -/
theorem catalog_fallback_policy_witness :
    search_medications (.responses ⟨500, [1]⟩ ⟨200, []⟩) "x" = get_mock_pbs_data "x" ∧
    search_medications (.responses ⟨200, []⟩ ⟨200, []⟩) "x" = get_mock_pbs_data "x" ∧
    search_medications (.responses ⟨200, [7]⟩ ⟨404, []⟩) "x" = liveMedications ⟨404, []⟩ "x" ∧
    liveMedications ⟨404, []⟩ "x" = [] := by
  refine ⟨(catalog_fallback_policy ⟨500, [1]⟩ ⟨200, []⟩ "x").2.1 (by decide),
          (catalog_fallback_policy ⟨200, []⟩ ⟨200, []⟩ "x").2.2.1 rfl,
          (catalog_fallback_policy ⟨200, [7]⟩ ⟨404, []⟩ "x").2.2.2.1 rfl (by decide),
          (catalog_fallback_policy ⟨200, [7]⟩ ⟨404, []⟩ "x").2.2.2.2.1 (by decide)⟩

/-- C2 counterexample: when the history insert fails, the `search_pbs`
endpoint does not swallow the failure — its catch-all converts it into an
HTTP 500 error, so the caller receives an error caused by history logging
rather than the search results. -/
theorem history_failure_returns_500 :
    (search_pbs_handler [] false .exn ⟨"aspirin", some "pbs"⟩ "id0" 3).2 =
      HandlerResult.httpError 500 "PBS search failed" := by
  rfl

/-- C2 (amended): the query is recorded to the history ledger
synchronously before dispatch, but a persistence failure is not
swallowed: the endpoint's catch-all turns it into an HTTP 500 response
("PBS search failed" / "Unified search failed"), the ledger is left
unchanged, and the caller does not receive search results. -/
theorem history_persistence_policy (ledger : List MedicationSearch) (pbsEnv : PBSOutcome)
    (gEnv : GoogleEnv) (gOutcome : WebOutcome) (req : MedicationSearchCreate)
    (id : String) (ts rts : Nat) :
    search_pbs_handler ledger true pbsEnv req id ts =
      (ledger ++ [pbsLogEntry req id ts],
        .success (search_medications pbsEnv req.query)) ∧
    search_pbs_handler ledger false pbsEnv req id ts =
      (ledger, .httpError 500 "PBS search failed") ∧
    unified_handler ledger true pbsEnv gEnv gOutcome req id ts rts =
      (ledger ++ [unifiedLogEntry req id ts],
        .success { query := req.query,
                   pbs_results := search_medications pbsEnv req.query,
                   web_results := search_medical_sites gEnv gOutcome req.query,
                   search_timestamp := rts }) ∧
    unified_handler ledger false pbsEnv gEnv gOutcome req id ts rts =
      (ledger, .httpError 500 "Unified search failed") := by
  exact ⟨rfl, rfl, rfl, rfl⟩

/-- C3 counterexample: with both credentials configured, the web-search
client issues exactly one live request, carrying the raw query (no
`site:` scoping) and `num = 10` — not the five per-domain requests the
claim describes. -/
theorem web_search_single_request :
    google_requests ⟨some "k", some "c"⟩ "amoxicillin" = [("amoxicillin", 10)] ∧
    (google_requests ⟨some "k", some "c"⟩ "amoxicillin").length ≠ 5 := by
  exact ⟨rfl, by decide⟩

/-- C3 (amended): with both credentials configured the client issues a
single Custom Search request with the raw query text and `num = 10` (no
per-domain iteration, no `site:` scoping, no per-domain cap of 5); each
item of a 200 response is tagged by `_determine_source`, a fixed
URL-substring table over the five trusted domains with the generic
default "Australian Health", and the upstream item order is preserved by
the element-wise mapping. -/
theorem web_search_request_shape (k c q : String) (items : List GoogleItem)
    (hk : k ≠ "") (hc : c ≠ "") :
    google_requests ⟨some k, some c⟩ q = [(q, 10)] ∧
    search_medical_sites ⟨some k, some c⟩ (.resp 200 items) q = items.map mkWebResult ∧
    determine_source "https://www.tga.gov.au/products" = "TGA" ∧
    determine_source "https://www.nps.org.au/medicines" = "NPS" ∧
    determine_source "https://www.pbs.gov.au/schedule" = "PBS" ∧
    determine_source "https://www.health.gov.au/topics" = "Health.gov.au" ∧
    determine_source "https://www.medicinesafety.gov.au/alerts" = "Medicine Safety" ∧
    determine_source "https://example.com/page" = "Australian Health" := by
  have hk' : (k != "") = true := by simpa using hk
  have hc' : (c != "") = true := by simpa using hc
  refine ⟨?_, ?_, by decide, by decide, by decide, by decide, by decide, by decide⟩
  · simp [google_requests, truthy, hk', hc']
  · simp [search_medical_sites, truthy, hk', hc']

/-- C3 witness: concrete instance with both credentials set. -/
theorem web_search_request_shape_witness :
    google_requests ⟨some "k", some "c"⟩ "panadol" = [("panadol", 10)] ∧
    search_medical_sites ⟨some "k", some "c"⟩ (.resp 200 []) "panadol" =
      List.map mkWebResult [] := by
  have h := web_search_request_shape "k" "c" "panadol" [] (by decide) (by decide)
  exact ⟨h.1, h.2.1⟩

/-- C4: the web-search client never lets an exception escape — the
explicit-exception model always returns `.ok` of the plain result — and
whenever the API key or the CSE credential is absent (`None`), every live
call is skipped and the full synthetic fallback set is returned. -/
theorem web_search_never_raises (env : GoogleEnv) (outcome : WebOutcome) (q : String)
    (o : Option String) :
    search_medical_sitesE env outcome q =
      Except.ok (search_medical_sites env outcome q) ∧
    search_medical_sites ⟨none, o⟩ outcome q = get_mock_web_results q ∧
    search_medical_sites ⟨o, none⟩ outcome q = get_mock_web_results q := by
  refine ⟨?_, ?_, ?_⟩
  · by_cases hg : (!truthy env.api_key || !truthy env.cse_id) = true
    · simp [search_medical_sitesE, search_medical_sites, hg]
    · cases outcome with
      | exn =>
        simp [search_medical_sitesE, search_medical_sites, search_medical_sites_body, hg]
      | resp status items =>
        by_cases hs : (status == 200) = true <;>
          simp [search_medical_sitesE, search_medical_sites, search_medical_sites_body, hg, hs]
  · simp [search_medical_sites, truthy]
  · simp [search_medical_sites, truthy]

/-- C5 (code bug): the dispatch phase of `unified_medical_search` awaits
the two sub-searches sequentially, so its modelled wall-clock duration is
the sum of the two latencies — at latencies 10 and 10 it is 20, and no
fixed overhead bound can reconcile the sum with the claimed
`max + overhead` bound. -/
theorem unified_sequential_duration :
    unified_duration 10 10 = 20 ∧
    ∀ overhead : Nat, ∃ tp tw : Nat,
      unified_duration tp tw > max tp tw + overhead := by
  refine ⟨rfl, fun c => ⟨c + 1, c + 1, ?_⟩⟩
  simp only [unified_duration, Nat.max_self]
  omega

/-- C6 counterexample: with the live upstream unavailable, the empty
query does not degrade to the generic fallback record embedding the empty
string — it matches the first seed ("paracetamol"), because the empty
query is a substring of every seed name. -/
theorem empty_query_matches_seed :
    search_medications .exn "" = paracetamolSeed ∧
    search_medications .exn "" ≠ [genericFallback ""] := by
  exact ⟨by decide, by decide⟩

/-- C6 (amended): for the empty query with the live upstream unavailable,
`search_medications` returns the seeded "paracetamol" fallback entry (the
first seed in table order, since the empty lowercased query is contained
in every seed name), and the generic record embedding the query text is
not produced. -/
theorem empty_query_returns_first_seed :
    search_medications .exn "" = paracetamolSeed ∧
    genericFallback "" ∉ search_medications .exn "" := by
  exact ⟨by decide, by decide⟩

/-- C7: within one client invocation the returned result set is
homogeneous — the catalog result is either exactly the fallback set or
exactly a live-derived list, and the web result is either exactly the
fallback set or exactly the element-wise image of upstream items; live
and fallback records are never intermixed. -/
theorem results_not_intermixed (pbsEnv : PBSOutcome) (gEnv : GoogleEnv)
    (outcome : WebOutcome) (q : String) :
    (search_medications pbsEnv q = get_mock_pbs_data q ∨
      ∃ amt : AmtResponse, search_medications pbsEnv q = liveMedications amt q) ∧
    (search_medical_sites gEnv outcome q = get_mock_web_results q ∨
      ∃ items : List GoogleItem,
        search_medical_sites gEnv outcome q = items.map mkWebResult) := by
  constructor
  · cases pbsEnv with
    | exn => exact Or.inl rfl
    | responses sched amt =>
      by_cases h₁ : (sched.status_code == 200) = true
      · by_cases h₂ : sched.results.isEmpty = true
        · exact Or.inl (by simp [search_medications, h₁, h₂])
        · exact Or.inr ⟨amt, by simp [search_medications, h₁, h₂]⟩
      · exact Or.inl (by simp [search_medications, h₁])
  · by_cases hg : (!truthy gEnv.api_key || !truthy gEnv.cse_id) = true
    · exact Or.inl (by simp [search_medical_sites, hg])
    · cases outcome with
      | exn => exact Or.inl (by simp [search_medical_sites, hg])
      | resp status items =>
        by_cases hs : (status == 200) = true
        · exact Or.inr ⟨items, by simp [search_medical_sites, hg, hs]⟩
        · exact Or.inl (by simp [search_medical_sites, hg, hs])

/-- C8 counterexample: a ledger holding two entries with the same
timestamp is returned by the history read without any strict descent —
the output is not strictly descending by timestamp. -/
theorem history_not_strictly_descending :
    ¬ List.Pairwise (fun a b => b.timestamp < a.timestamp)
      (recent_searches [⟨"a", "q1", "pbs", 5⟩, ⟨"b", "q2", "unified", 5⟩]) := by
  decide

/-- C8 (amended): for every ledger state the history read returns at most
50 entries (the fixed default-and-maximum limit) sorted descending by
timestamp, non-strictly: entries sharing a timestamp may be adjacent. -/
theorem history_sorted_descending (ledger : List MedicationSearch) :
    (recent_searches ledger).length ≤ 50 ∧
    List.Sorted tsDesc (recent_searches ledger) := by
  constructor
  · exact List.length_take_le 50 _
  · exact List.Pairwise.sublist (List.take_sublist 50 _)
      (List.sorted_insertionSort tsDesc ledger)

/-- C9: the `search_type` supplied in the request body is ignored — the
ledger entry each endpoint writes is independent of it and always carries
the endpoint's own fixed type ("pbs", "google_search", "unified"). -/
theorem ledger_search_type_fixed (q : String) (s₁ s₂ : Option String)
    (id : String) (ts : Nat) :
    pbsLogEntry ⟨q, s₁⟩ id ts = pbsLogEntry ⟨q, s₂⟩ id ts ∧
    (pbsLogEntry ⟨q, s₁⟩ id ts).search_type = "pbs" ∧
    googleLogEntry ⟨q, s₁⟩ id ts = googleLogEntry ⟨q, s₂⟩ id ts ∧
    (googleLogEntry ⟨q, s₁⟩ id ts).search_type = "google_search" ∧
    unifiedLogEntry ⟨q, s₁⟩ id ts = unifiedLogEntry ⟨q, s₂⟩ id ts ∧
    (unifiedLogEntry ⟨q, s₁⟩ id ts).search_type = "unified" := by
  exact ⟨rfl, rfl, rfl, rfl, rfl, rfl⟩

/-- C10: the health endpoint reports `google_search` as "configured"
exactly when `GOOGLE_API_KEY` is set to a non-empty string (Python
truthiness), and since the client itself demands both credentials there
is a configuration — API key set, CSE id absent — in which health says
"configured" while every web search serves the synthetic fallback set. -/
theorem health_configured_iff_api_key :
    (∀ env : GoogleEnv, health_google env = "configured" ↔ truthy env.api_key = true) ∧
    ∃ env : GoogleEnv, health_google env = "configured" ∧
      ∀ (outcome : WebOutcome) (q : String),
        search_medical_sites env outcome q = get_mock_web_results q := by
  constructor
  · intro env
    unfold health_google
    by_cases h : truthy env.api_key = true <;> simp [h]
  · refine ⟨⟨some "key", none⟩, rfl, fun outcome q => ?_⟩
    simp [search_medical_sites, truthy]

end MedSearch
